import Mathlib

/-!
# Verification of the StockShield graph generator

Shallow embedding of `src/backend/generate_graphs.py`.  Python floats are
modelled as rationals (`ℚ`), millisecond timestamps as naturals, regime labels
as strings.  Chart rendering (matplotlib) is modelled by the data each renderer
computes and the artifact file name it writes; console output is modelled by an
inductive line type.
-/

namespace StockShield

/-- One entry of `priceData`: `{timestamp, price, regime}`. -/
structure PricePoint where
  timestamp : ℕ
  price : ℚ
  regime : String
deriving Repr, DecidableEq

/-- One entry of `vpinData`: `{timestamp, vpin}`. -/
structure VpinPoint where
  timestamp : ℕ
  vpin : ℚ
deriving Repr, DecidableEq

/-- One entry of `tradeData`: `{volume, isInformed, isBuy}`. -/
structure Trade where
  volume : ℚ
  isInformed : Bool
  isBuy : Bool
deriving Repr, DecidableEq

/-- A scenario record (`withoutProtection` / `withProtection`). -/
structure ScenarioResult where
  feesEarned : ℚ
  impermanentLoss : ℚ
  adverseSelectionLoss : ℚ
  gapLoss : ℚ
  gapAuctionGains : ℚ
  netPnL : ℚ
deriving Repr, DecidableEq

/-- The `comparison` record. -/
structure Comparison where
  feeImprovement : ℚ
  adverseSelectionReduction : ℚ
  gapProtectionValue : ℚ
deriving Repr, DecidableEq

/-- The `config` record. -/
structure Config where
  simulationDays : ℕ
  initialLPBalance : ℚ
deriving Repr, DecidableEq

/-- The root simulation document loaded from `simulation_data.json`. -/
structure SimulationDocument where
  config : Config
  priceData : List PricePoint
  vpinData : List VpinPoint
  tradeData : List Trade
  withoutProtection : ScenarioResult
  withProtection : ScenarioResult
  comparison : Comparison
deriving Repr, DecidableEq

/-! ## Regime segmentation (create_price_chart, lines 52–62)

The Python loop:
```
prev_regime = None
start_idx = 0
for i, regime in enumerate(regimes):
    if regime != prev_regime:
        if prev_regime is not None:
            ax.axvspan(timestamps[start_idx], timestamps[i-1], ...)
        start_idx = i
        prev_regime = regime
```
Each `axvspan` call shades the index range `[start_idx, i-1]` with the colour
of the previous regime.  Note the loop body is the only place a span is
emitted; no span is emitted after the loop ends. -/

/-- State-passing embedding of the regime loop: remaining labels, current
index `i`, `prev_regime` (`none` models Python `None`), `start_idx`.
Returns the list of `(start_idx, end_idx, label)` spans emitted by
`ax.axvspan`, in emission order. -/
def spansGo : List String → ℕ → Option String → ℕ → List (ℕ × ℕ × String)
  | [], _, _, _ => []
  | r :: rest, i, prev, start =>
    if some r ≠ prev then
      (match prev with
        | some p => [(start, i - 1, p)]
        | none => []) ++ spansGo rest (i + 1) (some r) i
    else
      spansGo rest (i + 1) prev start

/-- The regime background spans emitted while rendering the price chart. -/
def regimeSpans (regimes : List String) : List (ℕ × ℕ × String) :=
  spansGo regimes 0 none 0

/-! ## VPIN high bands (create_vpin_chart, lines 109–114)

```
for i in range(len(timestamps)):
    if vpins[i] > 0.5:
        ax.axvspan(timestamps[max(0, i-1)], timestamps[min(len(timestamps)-1, i+1)], ...)
```
-/

/-- The highlighted band emitted for index `i`, if any: drawn exactly when
`vpins[i] > 0.5`, spanning indices `max(0, i-1)` to `min(len-1, i+1)`. -/
def vpinBandAt (vpins : List ℚ) (i : ℕ) : Option (ℕ × ℕ) :=
  if vpins.getD i 0 > 1/2 then
    some (max 0 (i - 1), min (vpins.length - 1) (i + 1))
  else
    none

/-- All highlighted bands of the VPIN chart, in emission order. -/
def vpinBands (vpins : List ℚ) : List (ℕ × ℕ) :=
  (List.range vpins.length).filterMap (vpinBandAt vpins)

/-- The breach indices: those `i` with `vpins[i] > 0.5` (spec-side notion used
to characterise `vpinBands`). -/
def breachIndices (vpins : List ℚ) : List ℕ :=
  (List.range vpins.length).filter (fun i => decide (vpins.getD i 0 > 1/2))

/-! ## Comparison chart (create_comparison_chart, lines 140–217) -/

/-- Bar heights of the without-protection variant (lines 141–147):
`[feesEarned, -impermanentLoss, -adverseSelectionLoss, -gapLoss, 0]`. -/
def without_vals (s : ScenarioResult) : List ℚ :=
  [s.feesEarned, -s.impermanentLoss, -s.adverseSelectionLoss, -s.gapLoss, 0]

/-- Bar heights of the with-protection variant (lines 148–154):
`[feesEarned, -impermanentLoss, -adverseSelectionLoss, -gapLoss, gapAuctionGains]`. -/
def with_vals (s : ScenarioResult) : List ℚ :=
  [s.feesEarned, -s.impermanentLoss, -s.adverseSelectionLoss, -s.gapLoss,
    s.gapAuctionGains]

/-- Line 212: `improvement = with_prot[netPnL] - without[netPnL]`. -/
def improvement (withProt without : ScenarioResult) : ℚ :=
  withProt.netPnL - without.netPnL

/-- Line 213: `improvement_pct = (improvement / data[config][initialLPBalance]) * 100`. -/
def improvement_pct (withProt without : ScenarioResult) (cfg : Config) : ℚ :=
  improvement withProt without / cfg.initialLPBalance * 100

/-! ## Protection-value pie (create_protection_value_pie, lines 224–255) -/

/-- Lines 231–235: `sizes = [max(0, feeImprovement), max(0, adverseSelectionReduction),
max(0, gapProtectionValue)]`. -/
def pieSizes (c : Comparison) : List ℚ :=
  [max 0 c.feeImprovement, max 0 c.adverseSelectionReduction,
    max 0 c.gapProtectionValue]

/-- Line 239: `total = sum(sizes)`. -/
def pieTotal (c : Comparison) : ℚ :=
  (pieSizes c).sum

/-- What `create_protection_value_pie` renders: the wedge sizes when a pie is
drawn (`if total > 0`, line 241), the total shown in the title (line 249), the
artifact file name written (line 253), and whether a created line is printed
(line 255 — unconditionally). -/
structure PieRender where
  wedges : Option (List ℚ)
  titleTotal : ℚ
  artifact : String
  createdLine : Bool
deriving Repr, DecidableEq

/-- Embedding of `create_protection_value_pie`.  The savefig and print at
lines 253–255 are outside the `if total > 0` guard, so the artifact and the
created line are produced on every run. -/
def create_protection_value_pie (c : Comparison) : PieRender :=
  { wedges := if pieTotal c > 0 then some (pieSizes c) else none
    titleTotal := pieTotal c
    artifact := "protection_value_pie.png"
    createdLine := true }

/-! ## Trade distribution (create_trade_distribution_chart, lines 257–294) -/

/-- Line 265: sum of t.volume over trades with isInformed true. -/
def informed_vol (trades : List Trade) : ℚ :=
  ((trades.filter (·.isInformed)).map (·.volume)).sum

/-- Line 266: sum of t.volume over trades with isInformed false. -/
def retail_vol (trades : List Trade) : ℚ :=
  ((trades.filter (fun t => !t.isInformed)).map (·.volume)).sum

/-- Line 279: sum of t.volume over trades with isBuy true. -/
def buy_vol (trades : List Trade) : ℚ :=
  ((trades.filter (·.isBuy)).map (·.volume)).sum

/-- Line 280: sum of t.volume over trades with isBuy false. -/
def sell_vol (trades : List Trade) : ℚ :=
  ((trades.filter (fun t => !t.isBuy)).map (·.volume)).sum

/-- The grand total of all trade volumes (spec-side notion for the cross-check
invariant). -/
def total_vol (trades : List Trade) : ℚ :=
  (trades.map (·.volume)).sum

/-! ## Time normalizer (timestamp_to_datetime, lines 26–28)

`return datetime.fromtimestamp(ts / 1000)`.  The Python `datetime` type only
represents calendar years 1..9999 (`datetime.MAXYEAR = 9999`), and
`fromtimestamp` raises (`ValueError`/`OverflowError`/`OSError`) for epoch
seconds whose local calendar time falls outside that range.  The Gregorian
instant 10000-01-01T00:00:00 UTC is 253402300800 epoch seconds; we model the
domain of the host library with that UTC upper bound (the actual cutoff differs
only by the local-timezone offset, a few hours). -/

/-- Embedding of `timestamp_to_datetime`: `some` of the epoch-second time-axis
point when the host `datetime` can represent it, `none` when
`datetime.fromtimestamp` raises. -/
def timestamp_to_datetime (ts : ℕ) : Option ℚ :=
  if (ts : ℚ) / 1000 < 253402300800 then some ((ts : ℚ) / 1000) else none

/-! ## The five renderers as artifact-producing functions

Each renderer draws with matplotlib and then writes exactly one file and
prints one created line.  We model each as a function from the document to the
computed chart data plus the artifact file name.  Failure points are made
explicit with `Option` (`none` models an exception escaping the renderer):

* `create_price_chart` evaluates `prices[0]` (line 65), which raises
  `IndexError` when `priceData` is empty;
* `create_comparison_chart` evaluates
  `improvement / data[config][initialLPBalance]` (line 213), which raises
  `ZeroDivisionError` when the balance is zero;
* the other renderers evaluate total functions of their inputs. -/

/-- Embedding of `create_price_chart`: the regime spans it shades and the
artifact it writes, or `none` when `priceData` is empty (the `prices[0]`
reference at line 65 raises). -/
def create_price_chart (d : SimulationDocument) : Option (List (ℕ × ℕ × String) × String) :=
  match d.priceData with
  | [] => none
  | _ :: _ => some (regimeSpans (d.priceData.map (·.regime)), "price_chart.png")

/-- Embedding of `create_vpin_chart`: the highlighted bands and the artifact
it writes.  Total: the band loop ranges over valid indices only. -/
def create_vpin_chart (d : SimulationDocument) : List (ℕ × ℕ) × String :=
  (vpinBands (d.vpinData.map (·.vpin)), "vpin_chart.png")

/-- What `create_comparison_chart` renders: the two grouped bar vectors
(lines 141–154), the two net P&L bars (line 191), the improvement annotation
(lines 212–214), and the artifact file name. -/
structure ComparisonRender where
  withoutBars : List ℚ
  withBars : List ℚ
  netBars : List ℚ
  annotImprovement : ℚ
  annotImprovementPct : ℚ
  artifact : String
deriving Repr, DecidableEq

/-- Embedding of `create_comparison_chart`, or `none` when
`config.initialLPBalance = 0` (the division at line 213 raises). -/
def create_comparison_chart (d : SimulationDocument) : Option ComparisonRender :=
  if d.config.initialLPBalance = 0 then none
  else some
    { withoutBars := without_vals d.withoutProtection
      withBars := with_vals d.withProtection
      netBars := [d.withoutProtection.netPnL, d.withProtection.netPnL]
      annotImprovement := improvement d.withProtection d.withoutProtection
      annotImprovementPct := improvement_pct d.withProtection d.withoutProtection d.config
      artifact := "comparison_chart.png" }

/-- Embedding of `create_trade_distribution_chart`: the two volume splits
(informed/retail and buy/sell) and the artifact file name.  Total. -/
def create_trade_distribution_chart (d : SimulationDocument) :
    (ℚ × ℚ) × (ℚ × ℚ) × String :=
  ((informed_vol d.tradeData, retail_vol d.tradeData),
    (buy_vol d.tradeData, sell_vol d.tradeData), "trade_distribution.png")

/-! ## Orchestrator (main, lines 296–329) -/

/-- One console line printed by `main` or a renderer, by kind. -/
inductive OutLine where
  /-- Line 298: the tool banner. -/
  | header : OutLine
  /-- Lines 299, 327, 329: a separator rule. -/
  | sep : OutLine
  /-- Line 306: `Data file not found:` followed by the path. -/
  | notFound : String → OutLine
  /-- Line 307: `Run the simulation first: npx ts-node src/yellow/e2e-simulation.ts`. -/
  | runHint : OutLine
  /-- Line 311: `Loading:` followed by the path. -/
  | loading : String → OutLine
  /-- Line 313: the config summary. -/
  | configLine : OutLine
  /-- Line 320: `Generating charts...`. -/
  | generating : OutLine
  /-- A `Created:` line naming one artifact (lines 90, 128, 222, 255, 294). -/
  | created : String → OutLine
  /-- Line 328: `All charts saved to:` followed by the directory. -/
  | allSaved : OutLine
deriving Repr, DecidableEq

/-- Whether a console line is part of the missing-file diagnostic
(lines 306–307). -/
def isDiagnostic : OutLine → Bool
  | OutLine.notFound _ => true
  | OutLine.runHint => true
  | _ => false

/-- Whether a console line is a created line. -/
def isCreated : OutLine → Bool
  | OutLine.created _ => true
  | _ => false

/-- The input path `main` looks for (line 303), relative to the script
directory. -/
def data_path : String := "simulation_results/simulation_data.json"

/-- The observable outcome of one run of `main`: the console lines printed,
the artifact files written, and the unhandled exception, if any, that escaped
a renderer and halted the run. -/
structure RunResult where
  lines : List OutLine
  artifacts : List String
  error : Option String
deriving Repr, DecidableEq

/-- Embedding of `main`: `fileExists` is whether `os.path.exists(data_path)`
holds, `d` the document the loader would return.  Mirrors lines 296–329: the
banner and separator always print; on a missing file the two diagnostic lines
print and `main` returns with no artifact; otherwise the loading and config
lines print and the five renderers run in order, each appending its created
line and artifact, with an exception from a renderer halting the run. -/
def mainRun (fileExists : Bool) (d : SimulationDocument) : RunResult :=
  let pre : List OutLine := [OutLine.header, OutLine.sep]
  if fileExists then
    let pre2 := pre ++ [OutLine.loading data_path, OutLine.configLine, OutLine.generating]
    match create_price_chart d with
    | none => { lines := pre2, artifacts := [], error := some "IndexError" }
    | some (_, a1) =>
      let a2 := (create_vpin_chart d).2
      let l2 := pre2 ++ [OutLine.created a1, OutLine.created a2]
      match create_comparison_chart d with
      | none => { lines := l2, artifacts := [a1, a2], error := some "ZeroDivisionError" }
      | some cr =>
        let pr := create_protection_value_pie d.comparison
        let tr := create_trade_distribution_chart d
        { lines := l2 ++ [OutLine.created cr.artifact, OutLine.created pr.artifact,
            OutLine.created tr.2.2, OutLine.sep, OutLine.allSaved, OutLine.sep]
          artifacts := [a1, a2, cr.artifact, pr.artifact, tr.2.2]
          error := none }
  else
    { lines := pre ++ [OutLine.notFound data_path, OutLine.runHint]
      artifacts := []
      error := none }

/-! ## Concrete documents used as witnesses -/

/-- A document with every sequence empty and every scalar zero. -/
def emptyDoc : SimulationDocument :=
  { config := ⟨0, 0⟩
    priceData := []
    vpinData := []
    tradeData := []
    withoutProtection := ⟨0, 0, 0, 0, 0, 0⟩
    withProtection := ⟨0, 0, 0, 0, 0, 0⟩
    comparison := ⟨0, 0, 0⟩ }

/-- A minimal well-formed document: one price sample, one VPIN sample, one
trade, both scenario variants and the comparison populated. -/
def minimalDoc : SimulationDocument :=
  { config := ⟨5, 100000⟩
    priceData := [⟨0, 100, "CORE_SESSION"⟩]
    vpinData := [⟨0, 1/10⟩]
    tradeData := [⟨1000, true, true⟩]
    withoutProtection := ⟨10, 5, 3, 2, 0, -1000⟩
    withProtection := ⟨20, 5, 1, 0, 4, 500⟩
    comparison := ⟨10, 2, 4⟩ }

/-! ## Helper lemmas -/

/-- A `filterMap` of a guarded `some` is a `map` over the `filter` by the
guard. -/
theorem filterMap_ite_eq_map_filter {α β : Type} (p : α → Prop) [DecidablePred p]
    (f : α → β) (l : List α) :
    l.filterMap (fun a => if p a then some (f a) else none) =
      (l.filter (fun a => decide (p a))).map f := by
  induction l with
  | nil => rfl
  | cons a l ih =>
    by_cases h : p a <;>
      simp [List.filterMap_cons, List.filter_cons, h, ih]

/-- Splitting a volume sum by any boolean predicate is lossless. -/
theorem vol_split (p : Trade → Bool) (trades : List Trade) :
    ((trades.filter p).map (·.volume)).sum +
      ((trades.filter (fun t => !p t)).map (·.volume)).sum = total_vol trades := by
  induction trades with
  | nil => simp [total_vol]
  | cons t ts ih =>
    cases h : p t <;>
      simp [List.filter_cons, h, total_vol] at * <;> linarith

/-! ## Claims -/

/-- C1: the regime loop never flushes its final run, so the shaded intervals
do not partition the index range.  An all-same-label sequence of length 2
yields zero shaded intervals (the claim asks for exactly one spanning the
whole range), and a two-label sequence yields one interval covering only
index 0, leaving index 1 unshaded (the claim asks for two intervals
partitioning the range). -/
theorem regime_segmentation_dropped_last_run :
    regimeSpans ["CORE_SESSION", "CORE_SESSION"] = [] ∧
    regimeSpans ["PRE_MARKET", "CORE_SESSION"] = [(0, 0, "PRE_MARKET")] :=
  ⟨rfl, rfl⟩

/-- C2: the highlighted bands of the VPIN chart are, in order, exactly the
clamped spans `(max(0, i-1), min(len-1, i+1))` of the breach indices `i` with
`vpins[i] > 0.5`; in particular on `[0.1, 0.2, 0.6, 0.3, 0.8, 0.2]` the breach
indices are `[2, 4]` and the bands cover `1..3` and `3..5`. -/
theorem vpin_high_band_detection :
    (∀ vpins : List ℚ, vpinBands vpins =
      (breachIndices vpins).map
        (fun i => (max 0 (i - 1), min (vpins.length - 1) (i + 1)))) ∧
    breachIndices [1/10, 2/10, 6/10, 3/10, 8/10, 2/10] = [2, 4] ∧
    vpinBands [1/10, 2/10, 6/10, 3/10, 8/10, 2/10] = [(1, 3), (3, 5)] := by
  refine ⟨fun vpins => ?_,
    by norm_num [breachIndices, List.range_succ, List.filter_cons, List.filter_append],
    by norm_num [vpinBands, vpinBandAt, List.range_succ, List.filterMap_cons,
      List.filterMap_append]⟩
  unfold vpinBands breachIndices vpinBandAt
  exact filterMap_ite_eq_map_filter _ _ _

/-- C3: the pie sizes are the raw contributions each floored at zero, hence
non-negative; their total is the sum of the positive parts of the three
inputs; and a zero clipped total draws no wedges (the renderer still returns,
with no wedges, rather than failing). -/
theorem protection_value_clipping (c : Comparison) :
    (∀ s ∈ pieSizes c, 0 ≤ s) ∧
    pieTotal c = max 0 c.feeImprovement + max 0 c.adverseSelectionReduction +
      max 0 c.gapProtectionValue ∧
    (pieTotal c = 0 → (create_protection_value_pie c).wedges = none) := by
  refine ⟨?_, ?_, ?_⟩
  · intro s hs
    simp only [pieSizes, List.mem_cons, List.not_mem_nil, or_false] at hs
    rcases hs with rfl | rfl | rfl <;> exact le_max_left 0 _
  · simp [pieTotal, pieSizes]; ring
  · intro h
    simp [create_protection_value_pie, h]

/-- Witness for C3 at the all-negative input `(-1, -2, -3)`: the clipped total
is zero and no wedges are drawn. -/
theorem protection_value_clipping_witness :
    pieTotal ⟨-1, -2, -3⟩ = 0 ∧
    (create_protection_value_pie ⟨-1, -2, -3⟩).wedges = none := by
  have h := protection_value_clipping ⟨-1, -2, -3⟩
  have ht : pieTotal ⟨-1, -2, -3⟩ = 0 := by
    norm_num [pieTotal, pieSizes, max_eq_left]
  exact ⟨ht, h.2.2 ht⟩

/-- C4: the informed/retail volume split and the buy/sell volume split each
sum to the grand total of all trade volumes, exactly, for every trade list
including the empty one. -/
theorem volume_split_cross_check (trades : List Trade) :
    informed_vol trades + retail_vol trades = total_vol trades ∧
    buy_vol trades + sell_vol trades = total_vol trades :=
  ⟨vol_split (·.isInformed) trades, vol_split (·.isBuy) trades⟩

/-- C5: whenever the comparison chart renders (nonzero balance), its
improvement annotation is `withProtection.netPnL - withoutProtection.netPnL`
and its percentage annotation is that improvement divided by
`config.initialLPBalance` times 100; in particular netPnLs of `-1000` and
`500` with balance `100000` give improvement `1500` and percentage `1.5`. -/
theorem net_improvement_formula (d : SimulationDocument)
    (h : d.config.initialLPBalance ≠ 0) :
    (∃ r, create_comparison_chart d = some r ∧
      r.annotImprovement = d.withProtection.netPnL - d.withoutProtection.netPnL ∧
      r.annotImprovementPct =
        (d.withProtection.netPnL - d.withoutProtection.netPnL) /
          d.config.initialLPBalance * 100) ∧
    improvement ⟨0, 0, 0, 0, 0, 500⟩ ⟨0, 0, 0, 0, 0, -1000⟩ = 1500 ∧
    improvement_pct ⟨0, 0, 0, 0, 0, 500⟩ ⟨0, 0, 0, 0, 0, -1000⟩ ⟨5, 100000⟩ = 3/2 := by
  refine ⟨?_, by norm_num [improvement], by norm_num [improvement_pct, improvement]⟩
  simp only [create_comparison_chart, if_neg h]
  exact ⟨_, rfl, rfl, rfl⟩

/-- Witness for C5 at `minimalDoc` (balance 100000): the annotations are
`1500` and `3/2`. -/
theorem net_improvement_formula_witness :
    ∃ r, create_comparison_chart minimalDoc = some r ∧
      r.annotImprovement = 1500 ∧ r.annotImprovementPct = 3/2 := by
  obtain ⟨⟨r, hr, h1, h2⟩, -, -⟩ :=
    net_improvement_formula minimalDoc (by norm_num [minimalDoc])
  refine ⟨r, hr, ?_, ?_⟩
  · rw [h1]; norm_num [minimalDoc]
  · rw [h2]; norm_num [minimalDoc]

/-- C6: whenever the comparison chart renders, its without-protection bar
vector is `[feesEarned, -impermanentLoss, -adverseSelectionLoss, -gapLoss, 0]`
and its with-protection bar vector is `[feesEarned, -impermanentLoss,
-adverseSelectionLoss, -gapLoss, gapAuctionGains]`: the three stored loss
magnitudes are negated for display and the without-protection gap-auction
component is zero for every input. -/
theorem pnl_sign_convention (d : SimulationDocument) (r : ComparisonRender)
    (h : create_comparison_chart d = some r) :
    r.withoutBars = [d.withoutProtection.feesEarned,
      -d.withoutProtection.impermanentLoss, -d.withoutProtection.adverseSelectionLoss,
      -d.withoutProtection.gapLoss, 0] ∧
    r.withBars = [d.withProtection.feesEarned,
      -d.withProtection.impermanentLoss, -d.withProtection.adverseSelectionLoss,
      -d.withProtection.gapLoss, d.withProtection.gapAuctionGains] ∧
    r.withoutBars.getD 4 0 = 0 := by
  by_cases hb : d.config.initialLPBalance = 0
  · simp [create_comparison_chart, hb] at h
  · simp only [create_comparison_chart, if_neg hb, Option.some.injEq] at h
    subst h
    exact ⟨rfl, rfl, rfl⟩

/-- Witness for C6 at `minimalDoc`: the rendered bar vectors are
`[10, -5, -3, -2, 0]` and `[20, -5, -1, 0, 4]`. -/
theorem pnl_sign_convention_witness :
    ∃ r, create_comparison_chart minimalDoc = some r ∧
      r.withoutBars = [10, -5, -3, -2, 0] ∧
      r.withBars = [20, -5, -1, 0, 4] := by
  have hr : create_comparison_chart minimalDoc =
      some { withoutBars := without_vals minimalDoc.withoutProtection
             withBars := with_vals minimalDoc.withProtection
             netBars := [minimalDoc.withoutProtection.netPnL,
               minimalDoc.withProtection.netPnL]
             annotImprovement :=
               improvement minimalDoc.withProtection minimalDoc.withoutProtection
             annotImprovementPct :=
               improvement_pct minimalDoc.withProtection minimalDoc.withoutProtection
                 minimalDoc.config
             artifact := "comparison_chart.png" } := by
    simp only [create_comparison_chart]
    rw [if_neg (by norm_num [minimalDoc])]
  obtain ⟨h1, h2, -⟩ := pnl_sign_convention minimalDoc _ hr
  refine ⟨_, hr, ?_, ?_⟩
  · rw [h1]; norm_num [minimalDoc]
  · rw [h2]; norm_num [minimalDoc]

/-- C7 counterexample: on a missing input file the orchestrator prints two
diagnostic lines (the not-found line and the remediation line), not exactly
one. -/
theorem missing_file_single_line_counterexample :
    (mainRun false emptyDoc).lines.countP isDiagnostic = 2 ∧
    ¬((mainRun false emptyDoc).lines.countP isDiagnostic = 1) := by
  constructor <;> decide

/-- C7 (amended): on a missing input file the orchestrator prints exactly two
diagnostic lines — the first naming the path, the second the remediation
command — produces zero artifacts, and returns normally with no error. -/
theorem missing_file_two_diagnostics (d : SimulationDocument) :
    (mainRun false d).lines.filter isDiagnostic =
      [OutLine.notFound data_path, OutLine.runHint] ∧
    (mainRun false d).artifacts = [] ∧
    (mainRun false d).error = none :=
  ⟨rfl, rfl, rfl⟩

/-- C8: on any document with one price sample, one VPIN sample, one trade and
a nonzero initial balance, one run of the orchestrator writes exactly the five
artifacts `price_chart`, `vpin_chart`, `comparison_chart`,
`protection_value_pie`, `trade_distribution` in that order, prints exactly
five created lines, and raises no unhandled error. -/
theorem end_to_end_five_artifacts (d : SimulationDocument)
    (hp : d.priceData.length = 1) (_hv : d.vpinData.length = 1)
    (_ht : d.tradeData.length = 1) (hb : d.config.initialLPBalance ≠ 0) :
    (mainRun true d).artifacts =
      ["price_chart.png", "vpin_chart.png", "comparison_chart.png",
        "protection_value_pie.png", "trade_distribution.png"] ∧
    (mainRun true d).lines.countP isCreated = 5 ∧
    (mainRun true d).error = none := by
  obtain ⟨p, hp'⟩ := List.length_eq_one.mp hp
  have hcomp : create_comparison_chart d =
      some { withoutBars := without_vals d.withoutProtection
             withBars := with_vals d.withProtection
             netBars := [d.withoutProtection.netPnL, d.withProtection.netPnL]
             annotImprovement := improvement d.withProtection d.withoutProtection
             annotImprovementPct :=
               improvement_pct d.withProtection d.withoutProtection d.config
             artifact := "comparison_chart.png" } := by
    simp only [create_comparison_chart, if_neg hb]
  refine ⟨?_, ?_, ?_⟩ <;>
    simp [mainRun, create_price_chart, hp', hcomp, create_vpin_chart,
      create_protection_value_pie, create_trade_distribution_chart,
      isCreated, List.countP_cons]

/-- Witness for C8 at the concrete `minimalDoc`. -/
theorem end_to_end_five_artifacts_witness :
    (mainRun true minimalDoc).artifacts =
      ["price_chart.png", "vpin_chart.png", "comparison_chart.png",
        "protection_value_pie.png", "trade_distribution.png"] ∧
    (mainRun true minimalDoc).lines.countP isCreated = 5 ∧
    (mainRun true minimalDoc).error = none :=
  end_to_end_five_artifacts minimalDoc rfl rfl rfl (by norm_num [minimalDoc])

/-- C9 counterexample: the timestamp conversion is not total over every
non-negative millisecond timestamp — at `10 ^ 18` (epoch second `10 ^ 15`,
far beyond the maximal representable calendar year 9999) the host
`datetime.fromtimestamp` raises instead of returning a point. -/
theorem timestamp_conversion_counterexample :
    timestamp_to_datetime (10 ^ 18) = none := by
  rw [timestamp_to_datetime, if_neg]
  norm_num

/-- C9 (amended): the timestamp conversion is pure and deterministic, and it
is total over the non-negative millisecond timestamps whose epoch second lies
below the upper bound of the representable calendar range (year 9999); on
those it returns the epoch-second point `ts / 1000`. -/
theorem timestamp_conversion_total_below_max (ts : ℕ)
    (h : (ts : ℚ) / 1000 < 253402300800) :
    timestamp_to_datetime ts = some ((ts : ℚ) / 1000) := by
  rw [timestamp_to_datetime, if_pos h]

/-- Witness for the amended C9 at a 2023 timestamp. -/
theorem timestamp_conversion_total_witness :
    timestamp_to_datetime 1700000000000 = some 1700000000 := by
  rw [timestamp_conversion_total_below_max 1700000000000 (by norm_num)]
  norm_num

/-- C10: the protection-value renderer writes its artifact and prints its
created line on every input; when the clipped total is zero it still renders
the chart — title total zero, no wedges — rather than skipping the file. -/
theorem protection_pie_always_written (c : Comparison) :
    (create_protection_value_pie c).artifact = "protection_value_pie.png" ∧
    (create_protection_value_pie c).createdLine = true ∧
    (pieTotal c = 0 →
      (create_protection_value_pie c).wedges = none ∧
      (create_protection_value_pie c).titleTotal = 0) := by
  refine ⟨rfl, rfl, fun h => ⟨?_, h⟩⟩
  simp [create_protection_value_pie, h]

/-- Witness for C10 at the degenerate input `(-5, 0, -7)` with clipped total
zero. -/
theorem protection_pie_always_written_witness :
    (create_protection_value_pie ⟨-5, 0, -7⟩).artifact = "protection_value_pie.png" ∧
    (create_protection_value_pie ⟨-5, 0, -7⟩).wedges = none := by
  have h := protection_pie_always_written ⟨-5, 0, -7⟩
  have ht : pieTotal ⟨-5, 0, -7⟩ = 0 := by
    norm_num [pieTotal, pieSizes, max_eq_left, max_self]
  exact ⟨h.1, (h.2.2 ht).1⟩

end StockShield
